import Mathlib

/-!
Shallow embedding of the my-p2p-dashboard client.

The react components are embedded as explicit state-transformer functions:
each handler takes the component state (plus the stored token, which models
the localStorage entry under the fixed key) together with the observed
outcome of any awaited fetch, and returns the new state alongside the list
of HTTP requests the handler issued. Timers are embedded as an explicit
runtime holding the set of active interval handles.
-/

/-- An HTTP request issued via fetch: endpoint path (relative to the API
base URL), method, and the value of the Authorization header when one is
attached. -/
structure Request where
  path : String
  method : String
  authHeader : Option String
deriving DecidableEq

/-- Outcome of one awaited fetch round-trip as the component code observes
it: a response with response.ok true carrying the parsed JSON data, a
response with an HTTP error status whose parsed body may carry a message
field, or a rejected promise (network-level failure, the catch branch). -/
inductive ReadResult (α : Type) where
  | ok (data : α)
  | httpError (message : Option String)
  | networkError
deriving DecidableEq

/-! ## App.jsx: navigation controller -/

/-- State owned by the App component, together with the localStorage token
slot (the session store). -/
structure AppState where
  currentPage : String
  isAuthenticated : Bool
  loadingApp : Bool
  token : Option String
deriving DecidableEq

/-- The GET /api/status request issued by checkAuthStatus, carrying the
stored bearer token. -/
def statusRequest (t : String) : Request :=
  { path := "/api/status", method := "GET", authHeader := some ("Bearer " ++ t) }

/-- The POST /api/logout request issued by handleLogout. -/
def logoutRequest (t : String) : Request :=
  { path := "/api/logout", method := "POST", authHeader := some ("Bearer " ++ t) }

/-- checkAuthStatus from App.jsx. With a stored token it issues the status
request; on response.ok it authenticates and selects Dashboard; on an HTTP
error it removes the token and shows Login; in the catch branch (network
failure) it shows Login but leaves the token in storage. Without a token it
shows Login with no request. setLoadingApp(false) runs on every path. -/
def checkAuthStatus (s : AppState) (result : ReadResult Unit) : AppState × List Request :=
  match s.token with
  | some t =>
    match result with
    | .ok _ =>
        ({ s with isAuthenticated := true, currentPage := "Dashboard", loadingApp := false },
         [statusRequest t])
    | .httpError _ =>
        ({ s with token := none, isAuthenticated := false, currentPage := "Login",
                  loadingApp := false },
         [statusRequest t])
    | .networkError =>
        ({ s with isAuthenticated := false, currentPage := "Login", loadingApp := false },
         [statusRequest t])
  | none =>
      ({ s with isAuthenticated := false, currentPage := "Login", loadingApp := false }, [])

/-- handleLoginSuccess from App.jsx: store the returned token, set
authenticated, select Dashboard. -/
def handleLoginSuccess (s : AppState) (t : String) : AppState :=
  { s with token := some t, isAuthenticated := true, currentPage := "Dashboard" }

/-- handleLogout from App.jsx. With a stored token it issues the logout
request; both the try continuation and the catch branch then remove the
token, clear the authenticated flag and select Login, so the awaited
outcome does not affect the resulting state. Without a token the same
local clearing happens with no request. -/
def handleLogout (s : AppState) (_result : ReadResult Unit) : AppState × List Request :=
  match s.token with
  | some t =>
      ({ s with token := none, isAuthenticated := false, currentPage := "Login" },
       [logoutRequest t])
  | none =>
      ({ s with token := none, isAuthenticated := false, currentPage := "Login" }, [])

/-- A session-changing user action on the controller: a successful login
returning a token, or a logout whose best-effort backend call had the given
outcome. -/
inductive AuthEvent where
  | loginSuccess (t : String)
  | logout (result : ReadResult Unit)

/-- Apply one session-changing action to the controller state. -/
def applyAuthEvent (s : AppState) (e : AuthEvent) : AppState :=
  match e with
  | .loginSuccess t => handleLoginSuccess s t
  | .logout r => (handleLogout s r).1

/-- Run a finite sequence of login/logout actions from a starting state. -/
def runAuthEvents (s : AppState) (es : List AuthEvent) : AppState :=
  es.foldl applyAuthEvent s

/-- The view the controller renders. -/
inductive View where
  | loadingView
  | loginView
  | dashboard
  | settings
  | clients
  | orders
  | payments
  | logs
deriving DecidableEq

/-- renderPage from App.jsx: the loading gate, then the authentication
gate, then the switch on currentPage whose default case renders
Dashboard. -/
def renderPage (loadingApp : Bool) (isAuthenticated : Bool) (currentPage : String) : View :=
  if loadingApp then .loadingView
  else if !isAuthenticated then .loginView
  else if currentPage = "Dashboard" then .dashboard
  else if currentPage = "Settings" then .settings
  else if currentPage = "Clients" then .clients
  else if currentPage = "Orders" then .orders
  else if currentPage = "Payments" then .payments
  else if currentPage = "Logs" then .logs
  else .dashboard

/-! ## Theorems about the navigation controller -/

/-- Claim C1 counterexample: with the token "tok" stored, a network-level
failure of the startup status call leaves the token in storage, whereas an
HTTP-error response clears it — the two paths are not treated identically
and the credential is not cleared on network failure. -/
theorem startup_network_failure_counterexample :
    (checkAuthStatus ⟨"Login", false, true, some "tok"⟩ ReadResult.networkError).1.token
      = some "tok" ∧
    (checkAuthStatus ⟨"Login", false, true, some "tok"⟩ (ReadResult.httpError none)).1.token
      = none := by
  exact ⟨rfl, rfl⟩

/-- Claim C1 (amended): on the startup check with a credential stored, a
network-level failure makes the controller enter the unauthenticated state
(Login shown) but leaves the stored credential in place; only an HTTP
error response clears the stored credential. -/
theorem startup_check_failure_semantics :
    (∀ (t : String) (s : AppState),
      checkAuthStatus { s with token := some t } ReadResult.networkError =
        ({ s with token := some t, isAuthenticated := false, currentPage := "Login",
                  loadingApp := false },
         [statusRequest t])) ∧
    (∀ (t : String) (s : AppState) (m : Option String),
      checkAuthStatus { s with token := some t } (ReadResult.httpError m) =
        ({ s with token := none, isAuthenticated := false, currentPage := "Login",
                  loadingApp := false },
         [statusRequest t])) := by
  exact ⟨fun t s => rfl, fun t s m => rfl⟩

/-- Claim C2: on startup with no stored credential, the controller issues
no request at all and renders the unauthenticated login view. -/
theorem startup_no_token_no_request (s : AppState) (result : ReadResult Unit) :
    checkAuthStatus { s with token := none } result =
      ({ s with token := none, isAuthenticated := false, currentPage := "Login",
                loadingApp := false }, []) ∧
    renderPage (checkAuthStatus { s with token := none } result).1.loadingApp
        (checkAuthStatus { s with token := none } result).1.isAuthenticated
        (checkAuthStatus { s with token := none } result).1.currentPage = View.loginView := by
  exact ⟨rfl, rfl⟩

/-- Claim C3: after any finite sequence of login/logout actions ending in a
successful login, the stored credential is exactly that login's token; after
any sequence ending in a logout — whatever the outcome of the best-effort
backend call, including a network failure — the stored credential is absent
and the controller is in the unauthenticated state (authenticated flag
cleared, Login selected). -/
theorem credential_tracks_last_auth_event :
    (∀ (s : AppState) (pre : List AuthEvent) (t : String),
      (runAuthEvents s (pre ++ [AuthEvent.loginSuccess t])).token = some t) ∧
    (∀ (s : AppState) (pre : List AuthEvent) (r : ReadResult Unit),
      (runAuthEvents s (pre ++ [AuthEvent.logout r])).token = none ∧
      (runAuthEvents s (pre ++ [AuthEvent.logout r])).isAuthenticated = false ∧
      (runAuthEvents s (pre ++ [AuthEvent.logout r])).currentPage = "Login") := by
  constructor
  · intro s pre t
    simp [runAuthEvents, List.foldl_append, applyAuthEvent, handleLoginSuccess]
  · intro s pre r
    simp only [runAuthEvents, List.foldl_append, List.foldl_cons, List.foldl_nil]
    rcases h : (List.foldl applyAuthEvent s pre).token with _ | t <;>
      simp [applyAuthEvent, handleLogout, h]

/-! ## Dashboard.jsx -/

/-- Parsed body of a successful GET /api/status response. -/
structure StatusBody where
  status : String
  lastRunTime : Option String
  numOrders : Int
  numPayments : Int
deriving DecidableEq

/-- State owned by the Dashboard component. -/
structure DashboardState where
  botStatus : String
  lastRunTime : String
  numOrders : Int
  numPayments : Int
  loading : Bool
  message : String
  logMessages : List String
deriving DecidableEq

/-- The GET /api/status request as the Dashboard revision issues it: the
Authorization header was removed from this revision. -/
def statusRequestNoAuth : Request :=
  { path := "/api/status", method := "GET", authHeader := none }

/-- fetchBotStatus from the Dashboard revision whose token read was
removed: the stored token is never consulted and the request carries no
Authorization header. On response.ok the four status fields are replaced
wholesale; on an HTTP error the displayed status string is overwritten with
the fixed marker and the response body is not read; in the catch branch the
status string becomes the network marker. -/
def fetchBotStatus (_token : Option String) (s : DashboardState)
    (result : ReadResult StatusBody) : DashboardState × List Request :=
  match result with
  | .ok body =>
      ({ s with botStatus := body.status, lastRunTime := body.lastRunTime.getD "N/A",
                numOrders := body.numOrders, numPayments := body.numPayments },
       [statusRequestNoAuth])
  | .httpError _ =>
      ({ s with botStatus := "Error (API)" }, [statusRequestNoAuth])
  | .networkError =>
      ({ s with botStatus := "Error (Network)" }, [statusRequestNoAuth])

/-! ## Orders.jsx -/

/-- An order row as rendered by the Orders table. -/
structure Order where
  id : Nat
  bybitOrderId : Option String
  clientName : String
  amountFiat : Int
  amountCrypto : Option Int
  sellerNickname : Option String
  paystackTxId : Option String
  status : String
  timestamp : String
deriving DecidableEq

/-- State owned by the Orders component. -/
structure OrdersState where
  orders : List Order
  loading : Bool
  error : String
deriving DecidableEq

/-- The GET /api/orders request: this revision removed the token check and
the Authorization header. -/
def ordersRequest : Request :=
  { path := "/api/orders", method := "GET", authHeader := none }

/-- fetchOrders from Orders.jsx. The token check is commented out in this
revision, so the request is issued whether or not a credential is stored,
with no Authorization header. setError runs first, the finally block
always ends loading. -/
def fetchOrders (_token : Option String) (s : OrdersState)
    (result : ReadResult (List Order)) : OrdersState × List Request :=
  let s := { s with error := "" }
  match result with
  | .ok data =>
      ({ s with orders := data, loading := false }, [ordersRequest])
  | .httpError msg =>
      ({ s with error := msg.getD "Failed to fetch orders (no authentication required).",
                loading := false },
       [ordersRequest])
  | .networkError =>
      ({ s with error := "Network error or server unreachable. Could not load orders.",
                loading := false },
       [ordersRequest])

/-! ## Payments page (part_002) -/

/-- A payment row as rendered by the Payments table. -/
structure Payment where
  id : Nat
  clientName : String
  amount : Int
  bank : Option String
  status : String
  timestamp : String
deriving DecidableEq

/-- State owned by the Payments component. -/
structure PaymentsState where
  payments : List Payment
  loading : Bool
  error : String
deriving DecidableEq

/-- The GET /api/payments request, with the given Authorization header. -/
def paymentsRequest (auth : Option String) : Request :=
  { path := "/api/payments", method := "GET", authHeader := auth }

/-- fetchPayments from the Payments component. Without a stored token it
sets the blocking error message locally and returns before any request;
with a token it issues the request with the bearer header and branches on
the outcome, always ending loading. -/
def fetchPayments (token : Option String) (s : PaymentsState)
    (result : ReadResult (List Payment)) : PaymentsState × List Request :=
  let s := { s with error := "" }
  match token with
  | none =>
      ({ s with error := "Authentication token missing. Please log in again.",
                loading := false }, [])
  | some t =>
    let req := paymentsRequest (some ("Bearer " ++ t))
    match result with
    | .ok data =>
        ({ s with payments := data, loading := false }, [req])
    | .httpError msg =>
        ({ s with error := msg.getD "Failed to fetch payments.", loading := false }, [req])
    | .networkError =>
        ({ s with error := "Network error or server unreachable. Could not load payments.",
                  loading := false }, [req])

/-! ## Theorems about the page fetches -/

/-- Claim C4 counterexample: with the credential "abc" present in the
session store, the Dashboard status fetch issues its request with no
Authorization header at all. -/
theorem dashboard_status_request_unauthenticated_counterexample :
    (fetchBotStatus (some "abc") ⟨"Loading...", "N/A", 0, 0, false, "", []⟩
        (ReadResult.ok ⟨"Running", none, 1, 2⟩)).2 =
      [{ path := "/api/status", method := "GET", authHeader := none }] := by
  exact rfl

/-- Claim C4 (amended): with a credential present, the Payments fetch
attaches the Bearer header to its one request, but the Dashboard revision
that removed the token read issues its status request with no Authorization
header. -/
theorem bearer_header_by_page :
    (∀ (t : String) (s : PaymentsState) (r : ReadResult (List Payment)),
      (fetchPayments (some t) s r).2 = [paymentsRequest (some ("Bearer " ++ t))]) ∧
    (∀ (t : String) (s : DashboardState) (r : ReadResult StatusBody),
      (fetchBotStatus (some t) s r).2 = [statusRequestNoAuth]) := by
  constructor
  · intro t s r; cases r <;> rfl
  · intro t s r; cases r <;> rfl

/-- Claim C5 counterexample: with no credential stored, fetchOrders still
issues its request and surfaces no missing-credential error message. -/
theorem orders_fetch_without_token_counterexample :
    (fetchOrders none ⟨[], true, ""⟩ (ReadResult.ok [])).2 = [ordersRequest] ∧
    (fetchOrders none ⟨[], true, ""⟩ (ReadResult.ok [])).1.error = "" := by
  exact ⟨rfl, rfl⟩

/-- Claim C5 (amended): the Payments fetch detects a missing credential
locally — blocking error message set, no request issued — but the Orders
revision with the token check commented out issues its request regardless
of the missing credential. -/
theorem missing_token_local_detection :
    (∀ (s : PaymentsState) (r : ReadResult (List Payment)),
      fetchPayments none s r =
        ({ s with error := "Authentication token missing. Please log in again.",
                  loading := false }, [])) ∧
    (∀ (s : OrdersState) (r : ReadResult (List Order)),
      (fetchOrders none s r).2 = [ordersRequest]) := by
  constructor
  · intro s r; rfl
  · intro s r; cases r <;> rfl

/-- Claim C6 counterexample: on an HTTP error response whose body carries
the message "maintenance", the Dashboard status fetch overwrites the
previously displayed status string with the fixed marker, discarding the
server-provided message — the previously displayed data is overwritten. -/
theorem dashboard_http_error_overwrites_status_counterexample :
    (fetchBotStatus (some "abc") ⟨"Running: processing order", "t0", 3, 4, false, "", []⟩
        (ReadResult.httpError (some "maintenance"))).1 =
      ⟨"Error (API)", "t0", 3, 4, false, "", []⟩ ∧
    ("Error (API)" : String) ≠ "Running: processing order" := by
  exact ⟨rfl, by decide⟩

/-- Claim C6 (amended): on an HTTP error status, Orders and Payments set
their dedicated error field to the server-provided message (or the page's
generic fallback) and leave the fetched data unchanged; the Dashboard
status fetch instead overwrites the displayed status string with the fixed
"Error (API)" marker, discarding the server message, while leaving the
other status fields unchanged. -/
theorem http_error_read_fetch_effects :
    (∀ (tok : Option String) (s : OrdersState) (m : Option String),
      fetchOrders tok s (ReadResult.httpError m) =
        ({ s with error := m.getD "Failed to fetch orders (no authentication required).",
                  loading := false }, [ordersRequest])) ∧
    (∀ (t : String) (s : PaymentsState) (m : Option String),
      fetchPayments (some t) s (ReadResult.httpError m) =
        ({ s with error := m.getD "Failed to fetch payments.", loading := false },
         [paymentsRequest (some ("Bearer " ++ t))])) ∧
    (∀ (tok : Option String) (s : DashboardState) (m : Option String),
      fetchBotStatus tok s (ReadResult.httpError m) =
        ({ s with botStatus := "Error (API)" }, [statusRequestNoAuth])) := by
  exact ⟨fun tok s m => rfl, fun t s m => rfl, fun tok s m => rfl⟩

/-! ## Clients component (src/src/Clients.jsx and the part_003 revision) -/

/-- The add-client form fields. -/
structure NewClientForm where
  name : String
  account : String
  bank : String
  amount : String
deriving DecidableEq

/-- A client row as rendered by the Clients table. -/
structure Client where
  id : Nat
  name : String
  account : String
  bank : String
  amount : Int
deriving DecidableEq

/-- State owned by the Clients component. -/
structure ClientsState where
  clients : List Client
  loading : Bool
  error : String
  message : String
  newClient : NewClientForm
deriving DecidableEq

/-- Observable side effects of a Clients handler, in the order the code
performs them: issuing an HTTP request, resetting the add-client form, and
re-running the client-list read fetch. -/
inductive ClientsEffect where
  | sendRequest (req : Request)
  | resetForm
  | refetchClients
deriving DecidableEq

/-- The POST /api/add-client request (the body serializes the form; only
path, method and the Authorization header are modelled). -/
def addClientRequest (auth : Option String) : Request :=
  { path := "/api/add-client", method := "POST", authHeader := auth }

/-- The DELETE /api/remove-client/id request. -/
def removeClientRequest (clientId : Nat) (auth : Option String) : Request :=
  { path := "/api/remove-client/" ++ toString clientId, method := "DELETE", authHeader := auth }

/-- handleAddClient from src/src/Clients.jsx: clear both messages, require
the token, send the authenticated POST; on response.ok show the server
message, reset all four form fields to the empty string and then refetch
the client list; on an HTTP error show the server message or the fallback;
in the catch branch show the connectivity message. The form is untouched on
every failure path. -/
def handleAddClient (token : Option String) (s : ClientsState)
    (result : ReadResult String) : ClientsState × List ClientsEffect :=
  let s := { s with message := "", error := "" }
  match token with
  | none =>
      ({ s with error := "Authentication token missing. Please log in again." }, [])
  | some t =>
    let req := addClientRequest (some ("Bearer " ++ t))
    match result with
    | .ok m =>
        ({ s with message := m, newClient := ⟨"", "", "", ""⟩ },
         [.sendRequest req, .resetForm, .refetchClients])
    | .httpError msg =>
        ({ s with error := msg.getD "Failed to add client." }, [.sendRequest req])
    | .networkError =>
        ({ s with error := "Network error or server unreachable. Could not add client." },
         [.sendRequest req])

/-- handleAddClient from the part_003 revision: identical control flow but
the token check and the Authorization header were removed. -/
def handleAddClientNoAuth (s : ClientsState) (result : ReadResult String) :
    ClientsState × List ClientsEffect :=
  let s := { s with message := "", error := "" }
  let req := addClientRequest none
  match result with
  | .ok m =>
      ({ s with message := m, newClient := ⟨"", "", "", ""⟩ },
       [.sendRequest req, .resetForm, .refetchClients])
  | .httpError msg =>
      ({ s with error := msg.getD "Failed to add client." }, [.sendRequest req])
  | .networkError =>
      ({ s with error := "Network error or server unreachable. Could not add client." },
       [.sendRequest req])

/-- handleRemoveClient from src/src/Clients.jsx: the window.confirm gate
returns before anything else when declined; otherwise clear both messages,
require the token, send the authenticated DELETE; on response.ok show the
server message and refetch the client list once; failures only set the
error message. -/
def handleRemoveClient (confirmed : Bool) (token : Option String) (clientId : Nat)
    (s : ClientsState) (result : ReadResult String) : ClientsState × List ClientsEffect :=
  if !confirmed then (s, [])
  else
    let s := { s with message := "", error := "" }
    match token with
    | none =>
        ({ s with error := "Authentication token missing. Please log in again." }, [])
    | some t =>
      let req := removeClientRequest clientId (some ("Bearer " ++ t))
      match result with
      | .ok m =>
          ({ s with message := m }, [.sendRequest req, .refetchClients])
      | .httpError msg =>
          ({ s with error := msg.getD "Failed to remove client." }, [.sendRequest req])
      | .networkError =>
          ({ s with error := "Network error or server unreachable. Could not remove client." },
           [.sendRequest req])

/-- handleRemoveClient from the part_003 revision: the ad-hoc modal plays
the role of the confirmation gate (resolving to the confirmed flag); the
token check and the Authorization header were removed, the rest of the
control flow is unchanged. -/
def handleRemoveClientNoAuth (confirmed : Bool) (clientId : Nat)
    (s : ClientsState) (result : ReadResult String) : ClientsState × List ClientsEffect :=
  if !confirmed then (s, [])
  else
    let s := { s with message := "", error := "" }
    let req := removeClientRequest clientId none
    match result with
    | .ok m =>
        ({ s with message := m }, [.sendRequest req, .refetchClients])
    | .httpError msg =>
        ({ s with error := msg.getD "Failed to remove client." }, [.sendRequest req])
    | .networkError =>
        ({ s with error := "Network error or server unreachable. Could not remove client." },
         [.sendRequest req])

/-! ## Poll timers -/

/-- Runtime of one mounted polling page: the interval handles still active
and the page state. -/
structure PollRuntime (σ : Type) where
  activeHandles : List Nat
  pageState : σ

/-- Mounting a page calls setInterval once per registered interval; the
returned handles are the ones the effect cleanup closure captures. -/
def setIntervals {σ : Type} (intervals : List Nat) (st : σ) : PollRuntime σ × List Nat :=
  (⟨List.range intervals.length, st⟩, List.range intervals.length)

/-- clearInterval on one handle. -/
def clearOneInterval {σ : Type} (r : PollRuntime σ) (h : Nat) : PollRuntime σ :=
  { r with activeHandles := r.activeHandles.filter (fun a => a != h) }

/-- The effect cleanup: clearInterval on each captured handle in turn. -/
def runCleanup {σ : Type} (r : PollRuntime σ) (handles : List Nat) : PollRuntime σ :=
  handles.foldl clearOneInterval r

/-- A timer firing: a tick of an active handle applies the poll callback's
state update; a tick of a cleared handle is a no-op. -/
def tick {σ : Type} (update : σ → σ) (h : Nat) (r : PollRuntime σ) : PollRuntime σ :=
  if h ∈ r.activeHandles then { r with pageState := update r.pageState } else r

/-- A page right after its cleanup ran: mounted, then every captured handle
cleared. -/
def pageAfterUnmount {σ : Type} (intervals : List Nat) (st : σ) : PollRuntime σ :=
  runCleanup (setIntervals intervals st).1 (setIntervals intervals st).2

/-- Intervals registered by the Dashboard effect: status every 5000 ms and
logs every 2000 ms. -/
def dashboardIntervals : List Nat := [5000, 2000]

/-- Interval registered by the Logs effect: 2000 ms. -/
def logsIntervals : List Nat := [2000]

/-- Interval registered by the Orders effect: 10000 ms. -/
def ordersIntervals : List Nat := [10000]

/-- Interval registered by the Payments effect: 10000 ms. -/
def paymentsIntervals : List Nat := [10000]

/-- Any handle surviving the cleanup was active before and is not among the
cleared handles. -/
theorem mem_runCleanup_active {σ : Type} (handles : List Nat) (r : PollRuntime σ) (a : Nat) :
    a ∈ (runCleanup r handles).activeHandles → a ∈ r.activeHandles ∧ a ∉ handles := by
  induction handles generalizing r with
  | nil =>
    intro ha
    exact ⟨ha, List.not_mem_nil a⟩
  | cons h t ih =>
    intro ha
    have h2 := ih (clearOneInterval r h) ha
    have h3 : a ∈ r.activeHandles ∧ (a != h) = true := by
      simpa [clearOneInterval, List.mem_filter] using h2.1
    refine ⟨h3.1, ?_⟩
    simp only [List.mem_cons, not_or]
    exact ⟨by simpa using h3.2, h2.2⟩

/-- After the cleanup of a freshly mounted page, no interval handle is
active. -/
theorem pageAfterUnmount_active {σ : Type} (intervals : List Nat) (st : σ) :
    (pageAfterUnmount intervals st).activeHandles = [] := by
  apply List.eq_nil_iff_forall_not_mem.mpr
  intro a ha
  have h2 := mem_runCleanup_active (setIntervals intervals st).2 (setIntervals intervals st).1 a ha
  exact h2.2 h2.1

/-! ## Theorems about navigation fallback, clients and timers -/

/-- Claim C7: a page-select action naming any page outside the enumerated
set renders the Dashboard landing page through the switch default case. -/
theorem page_select_unknown_falls_back (name : String)
    (h : name ∉ ["Dashboard", "Settings", "Clients", "Orders", "Payments", "Logs"]) :
    renderPage false true name = View.dashboard := by
  simp only [List.mem_cons, List.not_mem_nil, or_false, not_or] at h
  obtain ⟨h1, h2, h3, h4, h5, h6⟩ := h
  simp [renderPage, h1, h2, h3, h4, h5, h6]

/-- Claim C7 witness: the unknown page name "Home" renders Dashboard. -/
theorem page_select_unknown_falls_back_witness :
    ("Home" ∉ ["Dashboard", "Settings", "Clients", "Orders", "Payments", "Logs"]) ∧
    renderPage false true "Home" = View.dashboard :=
  ⟨by decide, page_select_unknown_falls_back "Home" (by decide)⟩

/-- Claim C8: in both Clients revisions, a declined confirmation leaves the
state untouched and issues nothing — the DELETE is only sent after the
confirmation gate — and a confirmed removal answered with response.ok shows
the server message and refetches the client list exactly once (the effect
trace holds one sendRequest of the DELETE and one refetchClients). -/
theorem remove_client_confirmation_and_refetch :
    (∀ (tok : Option String) (cid : Nat) (s : ClientsState) (r : ReadResult String),
      handleRemoveClient false tok cid s r = (s, [])) ∧
    (∀ (t : String) (cid : Nat) (s : ClientsState) (m : String),
      handleRemoveClient true (some t) cid s (ReadResult.ok m) =
        ({ s with message := m, error := "" },
         [ClientsEffect.sendRequest (removeClientRequest cid (some ("Bearer " ++ t))),
          ClientsEffect.refetchClients])) ∧
    (∀ (cid : Nat) (s : ClientsState) (r : ReadResult String),
      handleRemoveClientNoAuth false cid s r = (s, [])) ∧
    (∀ (cid : Nat) (s : ClientsState) (m : String),
      handleRemoveClientNoAuth true cid s (ReadResult.ok m) =
        ({ s with message := m, error := "" },
         [ClientsEffect.sendRequest (removeClientRequest cid none),
          ClientsEffect.refetchClients])) := by
  exact ⟨fun tok cid s r => rfl, fun t cid s m => rfl,
         fun cid s r => rfl, fun cid s m => rfl⟩

/-- Claim C9: the polling pages register recurring timers at exactly the
fixed intervals (Dashboard status 5000 ms and logs 2000 ms, Logs 2000 ms,
Orders 10000 ms, Payments 10000 ms), and once a page's cleanup has cleared
the handles its mount registered, a tick of any timer leaves the runtime —
page state included — unchanged: no poll-driven state update is observable
after the page is switched away. -/
theorem poll_timers_cancelled :
    dashboardIntervals = [5000, 2000] ∧ logsIntervals = [2000] ∧
    ordersIntervals = [10000] ∧ paymentsIntervals = [10000] ∧
    (∀ (σ : Type) (intervals : List Nat) (st : σ) (update : σ → σ) (h : Nat),
      tick update h (pageAfterUnmount intervals st) = pageAfterUnmount intervals st) := by
  refine ⟨rfl, rfl, rfl, rfl, ?_⟩
  intro σ intervals st update h
  simp [tick, pageAfterUnmount_active]

/-- Claim C10: in both Clients revisions, a submission answered with
response.ok resets all four form fields to the empty string and the effect
trace places the form reset before the client-list refetch; on an HTTP
error or a network failure the form fields are left unchanged and no
refetch happens. -/
theorem add_client_form_reset :
    (∀ (t : String) (s : ClientsState) (m : String),
      handleAddClient (some t) s (ReadResult.ok m) =
        ({ s with message := m, error := "", newClient := ⟨"", "", "", ""⟩ },
         [ClientsEffect.sendRequest (addClientRequest (some ("Bearer " ++ t))),
          ClientsEffect.resetForm, ClientsEffect.refetchClients])) ∧
    (∀ (t : String) (s : ClientsState) (m : Option String),
      handleAddClient (some t) s (ReadResult.httpError m) =
        ({ s with message := "", error := m.getD "Failed to add client." },
         [ClientsEffect.sendRequest (addClientRequest (some ("Bearer " ++ t)))])) ∧
    (∀ (t : String) (s : ClientsState),
      handleAddClient (some t) s ReadResult.networkError =
        ({ s with message := "",
                  error := "Network error or server unreachable. Could not add client." },
         [ClientsEffect.sendRequest (addClientRequest (some ("Bearer " ++ t)))])) ∧
    (∀ (s : ClientsState) (m : String),
      handleAddClientNoAuth s (ReadResult.ok m) =
        ({ s with message := m, error := "", newClient := ⟨"", "", "", ""⟩ },
         [ClientsEffect.sendRequest (addClientRequest none),
          ClientsEffect.resetForm, ClientsEffect.refetchClients])) ∧
    (∀ (s : ClientsState) (m : Option String),
      handleAddClientNoAuth s (ReadResult.httpError m) =
        ({ s with message := "", error := m.getD "Failed to add client." },
         [ClientsEffect.sendRequest (addClientRequest none)])) := by
  exact ⟨fun t s m => rfl, fun t s m => rfl, fun t s => rfl,
         fun s m => rfl, fun s m => rfl⟩
